import Mathlib

/-!
# plant-scan: the two request handlers of `app.js`

A shallow embedding of `POST /analyze` and `POST /download`.  The handlers are
glue between the filesystem, an inference provider and a PDF library, so each
handler is a function from the request, the filesystem state and the outcomes
of the external steps to the response, the new filesystem state and the list
of effects it issued, in order.
-/

namespace PlantScan

/-! ## Bytes and base64 (the runtime's `"base64"` encoding) -/

/-- One byte of a file. -/
abbrev Byte := Fin 256

/-- The base64 alphabet of RFC 4648, section 4. -/
def base64Chars : List Char :=
  "ABCDEFGHIJKLMNOPQRSTUVWXYZabcdefghijklmnopqrstuvwxyz0123456789+/".toList

/-- Character of a six-bit value. -/
def base64Char (n : Nat) : Char := base64Chars.getD n '='

/-- Encoder behind `readFile(path, { encoding: "base64" })`: three bytes become
four characters, a final group of one or two bytes is padded with `=`. -/
def base64Encode : List Byte → List Char
  | [] => []
  | [a] => [base64Char (a.val / 4), base64Char (a.val % 4 * 16), '=', '=']
  | [a, b] =>
    [base64Char (a.val / 4), base64Char (a.val % 4 * 16 + b.val / 16),
     base64Char (b.val % 16 * 4), '=']
  | a :: b :: c :: rest =>
    base64Char (a.val / 4) :: base64Char (a.val % 4 * 16 + b.val / 16) ::
      base64Char (b.val % 16 * 4 + c.val / 64) :: base64Char (c.val % 64) ::
      base64Encode rest

/-- The UTF-16 code units of a character, the units a string of the runtime
is made of. -/
def utf16Units (c : Char) : List Nat :=
  let n := c.toNat
  if n < 65536 then [n]
  else [55296 + (n - 65536) / 1024, 56320 + (n - 65536) % 1024]

/-- What the decoder behind `Buffer.from(s, "base64")` reads from a string:
every code unit cut down to its low byte. -/
def lowBytes : List Char → List Nat
  | [] => []
  | c :: cs => (utf16Units c).map (fun u => u % 256) ++ lowBytes cs

/-- Six-bit value of an input byte for the decoder, which accepts the standard
and the URL-safe alphabet; `none` for every other byte. -/
def unbase64 (n : Nat) : Option Nat :=
  if 65 ≤ n ∧ n ≤ 90 then some (n - 65)
  else if 97 ≤ n ∧ n ≤ 122 then some (n - 71)
  else if 48 ≤ n ∧ n ≤ 57 then some (n + 4)
  else if n = 43 ∨ n = 45 then some 62
  else if n = 47 ∨ n = 95 then some 63
  else none

/-- Six-bit values the decoder takes from the input bytes: bytes outside the
alphabet are skipped and the first `=` (byte 61) ends the input. -/
def sextets : List Nat → List Nat
  | [] => []
  | b :: bs =>
    if b = 61 then [] else
      match unbase64 b with
      | some v => v :: sextets bs
      | none => sextets bs

/-- Truncation of a number to a byte. -/
def toByte (n : Nat) : Byte := ⟨n % 256, Nat.mod_lt n (by decide)⟩

/-- Bytes of a run of six-bit values: four values give three bytes, a final
group of three gives two bytes, of two gives one byte, of one gives none. -/
def sextetBytes : List Nat → List Byte
  | s1 :: s2 :: s3 :: s4 :: rest =>
    toByte (s1 * 4 + s2 / 16) :: toByte (s2 % 16 * 16 + s3 / 4) ::
      toByte (s3 % 4 * 64 + s4) :: sextetBytes rest
  | [s1, s2, s3] => [toByte (s1 * 4 + s2 / 16), toByte (s2 % 16 * 16 + s3 / 4)]
  | [s1, s2] => [toByte (s1 * 4 + s2 / 16)]
  | _ => []

/-- Decoder behind `Buffer.from(s, "base64")`. -/
def base64Decode (s : List Char) : List Byte := sextetBytes (sextets (lowBytes s))

/-- The string `readFile` returns for a file with the given bytes. -/
def base64 (bytes : List Byte) : String := ⟨base64Encode bytes⟩

/-- The buffer `Buffer.from(s, "base64")` builds from a string. -/
def bufferFromBase64 (s : String) : List Byte := base64Decode s.data

/-! ## Filesystem state -/

/-- Filesystem state: the bytes of every path that exists. -/
abbrev FS := String → Option (List Byte)

/-- State after removing a path. -/
def FS.erase (fs : FS) (p : String) : FS := fun q => if q = p then none else fs q

/-- State after a path received the given content. -/
def FS.write (fs : FS) (p : String) (content : List Byte) : FS :=
  fun q => if q = p then some content else fs q

/-- Reading `fsPromises.readFile(p, { encoding: "base64" })`: rejects when the
path does not exist, else resolves with the base64 text of its bytes. -/
def readFile (fs : FS) (p : String) : Except String String :=
  match fs p with
  | none => .error "ENOENT: no such file or directory, open"
  | some bytes => .ok (base64 bytes)

/-- Deleting `fsPromises.unlink(p)`: rejects when the path does not exist, else
the path is gone. -/
def unlink (fs : FS) (p : String) : Except String FS :=
  match fs p with
  | none => .error "ENOENT: no such file or directory, unlink"
  | some _ => .ok (fs.erase p)

/-! ## Requests, responses, effects -/

/-- What the client receives: `res.status(n).json(body)` with a body of string
fields (`res.json` alone has status 200), `res.download(path)` streaming the
bytes of a file, or a download that broke off after its headers, with status
200, had gone out. -/
inductive Response
  | json (status : Nat) (body : List (String × String))
  | download (path : String) (content : List Byte)
  | aborted (path : String)
  deriving DecidableEq

/-- HTTP status of a response. -/
def Response.status : Response → Nat
  | .json status _ => status
  | .download _ _ => 200
  | .aborted _ => 200

/-- Value of a field of a JSON response. -/
def Response.field (r : Response) (key : String) : Option String :=
  match r with
  | .json _ body => body.lookup key
  | .download _ _ => none
  | .aborted _ => none

/-- Calls a handler makes to the outside, in the order it makes them. -/
inductive Effect
  | readFile (path : String)
  | generateContent (instruction mimeType data : String)
  | unlink (path : String)
  | mkdir (path : String)
  | createWriteStream (path : String)
  | sendFile (path : String)
  deriving DecidableEq

/-- What a handler leaves behind. -/
structure Outcome where
  response : Response
  fs : FS
  effects : List Effect
  logged : List String

/-! ## `POST /analyze` -/

/-- The `req.file` object of the upload middleware. -/
structure UploadedFile where
  path : String
  mimetype : String
  deriving DecidableEq

/-- Token characters of RFC 2045: the printable ASCII characters other than
the space and the separators of that grammar, among them the comma, the
semicolon and the slash. -/
def isTokenChar (c : Char) : Bool :=
  let n := c.toNat
  n == 33 || (35 ≤ n && n ≤ 39) || n == 42 || n == 43 || n == 45 || n == 46 ||
    (48 ≤ n && n ≤ 57) || (65 ≤ n && n ≤ 90) || (94 ≤ n && n ≤ 122) || n == 124 || n == 126

/-- A MIME type as an upload declares it and the upload middleware hands it
over in `req.file.mimetype`: a type and a subtype, both non-empty runs of
token characters, joined by a slash. -/
def isMimeType (m : String) : Bool :=
  match m.data.dropWhile isTokenChar with
  | '/' :: subtype =>
    !(m.data.takeWhile isTokenChar).isEmpty && !subtype.isEmpty && subtype.all isTokenChar
  | _ => false

/-- How `model.generateContent(...)` followed by `result.response.text()` ends:
the call rejects, the text accessor throws, or a text is returned. -/
inductive Generated
  | callFailed (message : String)
  | textFailed (message : String)
  | text (plantInfo : String)
  deriving DecidableEq

/-- Outcomes of the external steps of one `/analyze` request.  `readFault` and
`unlinkFault` are I/O errors other than a missing path. -/
structure AnalyzeEnv where
  readFault : Option String
  generateContent : String → String → String → Generated
  unlinkFault : Option String

/-- The fixed instruction sent with the picture. -/
def instruction : String :=
  "Analyze this plant image and provide a detailed analysis of its species, health, care instructions, and any interesting facts in plain text without markdown."

/-- The template literal of the `image` field. -/
def dataUri (mimetype imageData : String) : String :=
  "data:" ++ mimetype ++ ";base64," ++ imageData

/-- The answer of the `catch` block of `/analyze`. -/
def analyzeError : Response :=
  .json 500 [("error", "An error occurred while analyzing the image.")]

/-- The line the `catch` block of `/analyze` logs. -/
def analyzeLog (message : String) : String := "Error analyzing image: " ++ message

/-- The awaited `readFile` of line 31. -/
def readStep (env : AnalyzeEnv) (fs : FS) (p : String) : Except String String :=
  match env.readFault with
  | some e => .error e
  | none => readFile fs p

/-- The awaited `unlink` of line 48. -/
def unlinkStep (env : AnalyzeEnv) (fs : FS) (p : String) : Except String FS :=
  match env.unlinkFault with
  | some e => .error e
  | none => unlink fs p

/-- The `/analyze` handler (lines 24 to 58): the early return without a file,
then the read, the inference call, the text accessor and the deletion inside
the `try` block, each of which can throw into the one `catch` block. -/
def analyze (env : AnalyzeEnv) (fs : FS) (file : Option UploadedFile) : Outcome :=
  match file with
  | none => ⟨.json 400 [("error", "No image file uploaded")], fs, [], []⟩
  | some f =>
    match readStep env fs f.path with
    | .error e => ⟨analyzeError, fs, [.readFile f.path], [analyzeLog e]⟩
    | .ok imageData =>
      let called := [Effect.readFile f.path, .generateContent instruction f.mimetype imageData]
      match env.generateContent instruction f.mimetype imageData with
      | .callFailed e => ⟨analyzeError, fs, called, [analyzeLog e]⟩
      | .textFailed e => ⟨analyzeError, fs, called, [analyzeLog e]⟩
      | .text plantInfo =>
        match unlinkStep env fs f.path with
        | .error e => ⟨analyzeError, fs, called ++ [.unlink f.path], [analyzeLog e]⟩
        | .ok fs' =>
          ⟨.json 200 [("result", plantInfo), ("image", dataUri f.mimetype imageData)],
            fs', called ++ [.unlink f.path], []⟩

/-- The part of a string after its first comma. -/
def afterFirstComma (s : String) : String :=
  ⟨(s.data.dropWhile (fun c => c != ',')).drop 1⟩

/-! ## The regular expression of `/download` -/

/-- Pieces of the pattern: a literal character, or a greedy run of one or more
word characters. -/
inductive Atom
  | chr (c : Char)
  | wordPlus
  deriving DecidableEq

/-- The class of word characters: ASCII letters, digits and the underscore. -/
def isWordChar (c : Char) : Bool := c.isAlphanum || c == '_'

/-- First success of `f k`, `f (k - 1)`, down to `f 1`: a greedy quantifier
tries its longest run first and gives characters back one at a time. -/
def firstMatch {α : Type} (f : Nat → Option α) : Nat → Option α
  | 0 => none
  | k + 1 =>
    match f (k + 1) with
    | some r => some r
    | none => firstMatch f k

/-- Backtracking match of a pattern at the start of the input; the result is
the input left after the match. -/
def matchAtoms : List Atom → List Char → Option (List Char)
  | [], s => some s
  | .chr _ :: _, [] => none
  | .chr c :: rest, x :: s => if x = c then matchAtoms rest s else none
  | .wordPlus :: rest, s =>
    firstMatch (fun k => matchAtoms rest (s.drop k)) (s.takeWhile isWordChar).length

/-- The pattern of the source, anchored at the start of the string. -/
def dataUriPattern : List Atom :=
  "data:image/".toList.map Atom.chr ++ [Atom.wordPlus] ++ ";base64,".toList.map Atom.chr

/-- The call `image.replace(pattern, "")` for a pattern anchored at the start:
a match is cut off, a string without a match is returned as it is. -/
def replaceAnchored (pattern : List Atom) (s : String) : String :=
  match matchAtoms pattern s.data with
  | some rest => ⟨rest⟩
  | none => s

/-! ## `POST /download` -/

/-- Text alignment option. -/
inductive Align
  | left
  | center
  deriving DecidableEq

/-- Calls on the PDF document object.  The image call carries the buffer and
the `fit` box; its `align` and `valign` options are the constant `center`. -/
inductive DocOp
  | fontSize (size : Nat)
  | text (content : String) (align : Option Align)
  | moveDown
  | addPage
  | image (buffer : List Byte) (fitWidth fitHeight : Nat)
  | endDoc
  deriving DecidableEq

/-- The JSON body of `/download`: the `result` string, and the `image` string
when the field is present. -/
structure ReportBody where
  result : String
  image : Option String
  deriving DecidableEq

/-- Outcomes of the external steps of one `/download` request: the reports
directory, the clock, whether the library rejects an image buffer, the bytes
the library writes for the calls made on a document, the outcome of the write
stream, what a failed run leaves at the report path, the outcome of the
transfer, and whether the response headers had already gone out when the
transfer failed. -/
structure DownloadEnv where
  reportsDir : String
  mkdirFault : Option String
  now : Nat
  localeDate : String
  imageFault : List Byte → Option String
  render : List DocOp → List Byte
  writeFault : Option String
  leftover : Option (List Byte)
  sendFault : Option String
  headersSent : Bool

/-- Joining a directory and a file name. -/
def pathJoin (dir name : String) : String := dir ++ "/" ++ name

/-- The template literal of the report name; the timestamp is printed in
decimal. -/
def filename (now : Nat) : String := "plant_analysis_report_" ++ Nat.repr now ++ ".pdf"

/-- Lines 65 to 69: where the report of a request is written. -/
def reportPath (reportsDir : String) (now : Nat) : String := pathJoin reportsDir (filename now)

/-- Truthiness of the `image` field: present and not the empty string. -/
def truthy (image : Option String) : Bool :=
  match image with
  | none => false
  | some s => s != ""

/-- Lines 76 to 80: title, date and result text. -/
def textOps (result localeDate : String) : List DocOp :=
  [.fontSize 24, .text "Plant Analysis Report" (some .center), .moveDown,
   .fontSize 14, .text ("Date: " ++ localeDate) none, .moveDown,
   .fontSize 12, .text result (some .left)]

/-- The buffer of lines 84 and 85. -/
def imageBuffer (image : String) : List Byte :=
  bufferFromBase64 (replaceAnchored dataUriPattern image)

/-- Lines 83 to 88: the document calls made for the image. -/
def imageOps (image : Option String) : List DocOp :=
  match image with
  | none => []
  | some s => if truthy (some s) then [.addPage, .image (imageBuffer s) 500 400] else []

/-- The error thrown by `doc.image`, if any. -/
def imageError (env : DownloadEnv) (image : Option String) : Option String :=
  match image with
  | none => none
  | some s => if truthy (some s) then env.imageFault (imageBuffer s) else none

/-- The file signature `%PDF-`. -/
def pdfSignature : List Byte := [37, 80, 68, 70, 45]

/-- Pages of a document: the page the constructor opens, one per `addPage`,
and the pages the layout adds for each call (`overflow`). -/
def pageCount (overflow : DocOp → Nat) (ops : List DocOp) : Nat :=
  1 + (ops.map (fun op => if op = DocOp.addPage then 1 else overflow op)).sum

/-- The answer of the `catch` block of `/download`. -/
def downloadError : Response :=
  .json 500 [("error", "An error occurred while generating the PDF report.")]

/-- The answer of the send callback after a failed transfer. -/
def sendError : Response :=
  .json 500 [("error", "Error downloading the PDF report.")]

/-- The error `res.json` throws once the headers of the response have gone
out. -/
def headersSentError : String := "ERR_HTTP_HEADERS_SENT"

/-- What `/download` leaves behind: the outcome, the calls made on the document
object if one was created, and the error thrown out of the send callback, which
nothing catches, if any. -/
structure DownloadOutcome extends Outcome where
  document : Option (List DocOp)
  uncaught : Option String

/-- State after a run that failed before the transfer. -/
def leftOnDisk (env : DownloadEnv) (fs : FS) (filePath : String) : FS :=
  match env.leftover with
  | none => fs
  | some content => fs.write filePath content

/-- The `/download` handler (lines 61 to 109).  Everything up to the wait for
the write stream runs inside the `try` block; the transfer and what follows
it run in the send callback, outside the `try` block.  After a failed transfer
line 101 answers 500 when the headers are still unsent; when they have gone
out it throws, and line 103 is not reached.  The deletion of line 103 is not
awaited, so its outcome changes neither the answer nor the flow. -/
def download (env : DownloadEnv) (fs : FS) (body : ReportBody) : DownloadOutcome :=
  let log := fun (e : String) => "Error generating PDF report: " ++ e
  match env.mkdirFault with
  | some e => ⟨⟨downloadError, fs, [.mkdir env.reportsDir], [log e]⟩, none, none⟩
  | none =>
    let filePath := reportPath env.reportsDir env.now
    let opened := [Effect.mkdir env.reportsDir, .createWriteStream filePath]
    let drawn := textOps body.result env.localeDate ++ imageOps body.image
    match imageError env body.image with
    | some e =>
      ⟨⟨downloadError, leftOnDisk env fs filePath, opened, [log e]⟩, some drawn, none⟩
    | none =>
      let ops := drawn ++ [.endDoc]
      match env.writeFault with
      | some e =>
        ⟨⟨downloadError, leftOnDisk env fs filePath, opened, [log e]⟩, some ops, none⟩
      | none =>
        let content := env.render ops
        let written := fs.write filePath content
        let removed := match unlink written filePath with
          | .ok fs' => fs'
          | .error _ => written
        let issued := opened ++ [.sendFile filePath, .unlink filePath]
        match env.sendFault with
        | some e =>
          if env.headersSent then
            ⟨⟨.aborted filePath, written, opened ++ [.sendFile filePath],
                ["Error downloading PDF: " ++ e]⟩, some ops, some headersSentError⟩
          else
            ⟨⟨sendError, removed, issued, ["Error downloading PDF: " ++ e]⟩, some ops, none⟩
        | none => ⟨⟨.download filePath content, removed, issued, []⟩, some ops, none⟩

/-- Whether a document call draws an image. -/
def DocOp.isImage : DocOp → Bool
  | .image _ _ _ => true
  | _ => false

/-! ## Sample inputs -/

/-- A filesystem holding one uploaded file of three bytes. -/
def sampleFS : FS := fun p => if p = "uploads/3f2a" then some [77, 97, 110] else none

/-- A provider that answers every call with the given outcome; no I/O faults. -/
def sampleEnv (answer : Generated) : AnalyzeEnv := ⟨none, fun _ _ _ => answer, none⟩

/-- The uploaded file of `sampleFS` with a declared MIME type. -/
def sampleFile (mimetype : String) : UploadedFile := ⟨"uploads/3f2a", mimetype⟩

/-- The bytes of the line `%PDF-1.3`. -/
def sampleBytes : List Byte := [37, 80, 68, 70, 45, 49, 46, 51, 10]

/-- A `/download` environment with the given faults, a library that accepts
every image and writes the same bytes for every document, and a transfer that
fails, if it does, before the headers go out. -/
def sampleDownloadEnv (mkdirFault writeFault sendFault : Option String) : DownloadEnv :=
  ⟨"/srv/app/reports", mkdirFault, 1700000000000, "11/4/2026", fun _ => none,
    fun _ => sampleBytes, writeFault, none, sendFault, false⟩

/-- A `/download` environment whose transfer fails after the headers have gone
out. -/
def sampleAbortedEnv : DownloadEnv :=
  ⟨"/srv/app/reports", none, 1700000000000, "11/4/2026", fun _ => none,
    fun _ => sampleBytes, none, none, some "aborted", true⟩

/-- A filesystem with no files. -/
def emptyFS : FS := fun _ => none

/-! ## Checks on concrete inputs -/

example : base64 [77, 97, 110] = "TWFu" := by decide
example : base64 [77, 97] = "TWE=" := by decide
example : base64 [77] = "TQ==" := by decide
example : bufferFromBase64 "TWFu" = [77, 97, 110] := by decide
example : bufferFromBase64 "TQ==" = [77] := by decide
example : isMimeType "image/jpeg" = true := by decide
example : isMimeType "image/svg+xml" = true := by decide
example : isMimeType "image/png,x" = false := by decide
example : isMimeType "image" = false := by decide
example : bufferFromBase64 "TW Fu\n" = [77, 97, 110] := by decide
example : bufferFromBase64 "TWF\u0141" = [77, 97, 64] := by decide

theorem unbase64_base64Char : ∀ n, n < 64 →
    (utf16Units (base64Char n)).map (fun u => u % 256) = [(base64Char n).toNat] ∧
    (base64Char n).toNat ≠ 61 ∧ unbase64 (base64Char n).toNat = some n := by
  decide

theorem sextets_base64Char (n : Nat) (h : n < 64) (cs : List Char) :
    sextets (lowBytes (base64Char n :: cs)) = n :: sextets (lowBytes cs) := by
  obtain ⟨h0, h1, h2⟩ := unbase64_base64Char n h
  simp [lowBytes, h0, sextets, h1, h2]

theorem sextets_padding (cs : List Char) : sextets (lowBytes ('=' :: cs)) = [] := by
  have h : (utf16Units '=').map (fun u => u % 256) = [61] := by decide
  simp [lowBytes, h, sextets]

theorem toByte_val (a : Byte) (n : Nat) (h : n = a.val) : toByte n = a := by
  apply Fin.ext
  have := a.isLt
  simp only [toByte]
  omega

/-- Decoding inverts encoding. -/
theorem base64Decode_base64Encode (bytes : List Byte) :
    base64Decode (base64Encode bytes) = bytes := by
  unfold base64Decode
  induction bytes using base64Encode.induct with
  | case1 => rfl
  | case2 a =>
    have ha := a.isLt
    rw [base64Encode, sextets_base64Char _ (by omega), sextets_base64Char _ (by omega),
      sextets_padding]
    simp only [sextetBytes]
    rw [toByte_val a _ (by omega)]
  | case3 a b =>
    have ha := a.isLt
    have hb := b.isLt
    rw [base64Encode, sextets_base64Char _ (by omega), sextets_base64Char _ (by omega),
      sextets_base64Char _ (by omega), sextets_padding]
    simp only [sextetBytes]
    rw [toByte_val a _ (by omega), toByte_val b _ (by omega)]
  | case4 a b c rest ih =>
    have ha := a.isLt
    have hb := b.isLt
    have hc := c.isLt
    rw [base64Encode, sextets_base64Char _ (by omega), sextets_base64Char _ (by omega),
      sextets_base64Char _ (by omega), sextets_base64Char _ (by omega)]
    simp only [sextetBytes]
    rw [toByte_val a _ (by omega), toByte_val b _ (by omega), toByte_val c _ (by omega), ih]

theorem bufferFromBase64_base64 (bytes : List Byte) :
    bufferFromBase64 (base64 bytes) = bytes :=
  base64Decode_base64Encode bytes

/-! ## `/analyze`: one lemma per path through the handler -/

theorem analyze_none (env : AnalyzeEnv) (fs : FS) :
    analyze env fs none = ⟨.json 400 [("error", "No image file uploaded")], fs, [], []⟩ := rfl

theorem analyze_read_error (env : AnalyzeEnv) (fs : FS) (f : UploadedFile) (e : String)
    (h : readStep env fs f.path = .error e) :
    analyze env fs (some f) = ⟨analyzeError, fs, [.readFile f.path], [analyzeLog e]⟩ := by
  simp only [analyze, h]

theorem analyze_call_failed (env : AnalyzeEnv) (fs : FS) (f : UploadedFile) (d e : String)
    (h : readStep env fs f.path = .ok d)
    (hg : env.generateContent instruction f.mimetype d = .callFailed e) :
    analyze env fs (some f) =
      ⟨analyzeError, fs, [.readFile f.path, .generateContent instruction f.mimetype d],
        [analyzeLog e]⟩ := by
  simp only [analyze, h, hg]

theorem analyze_text_failed (env : AnalyzeEnv) (fs : FS) (f : UploadedFile) (d e : String)
    (h : readStep env fs f.path = .ok d)
    (hg : env.generateContent instruction f.mimetype d = .textFailed e) :
    analyze env fs (some f) =
      ⟨analyzeError, fs, [.readFile f.path, .generateContent instruction f.mimetype d],
        [analyzeLog e]⟩ := by
  simp only [analyze, h, hg]

theorem analyze_unlink_error (env : AnalyzeEnv) (fs : FS) (f : UploadedFile) (d t e : String)
    (h : readStep env fs f.path = .ok d)
    (hg : env.generateContent instruction f.mimetype d = .text t)
    (hu : unlinkStep env fs f.path = .error e) :
    analyze env fs (some f) =
      ⟨analyzeError, fs,
        [.readFile f.path, .generateContent instruction f.mimetype d, .unlink f.path],
        [analyzeLog e]⟩ := by
  simp only [analyze, h, hg, hu, List.cons_append, List.nil_append]

theorem analyze_success (env : AnalyzeEnv) (fs fs' : FS) (f : UploadedFile) (d t : String)
    (h : readStep env fs f.path = .ok d)
    (hg : env.generateContent instruction f.mimetype d = .text t)
    (hu : unlinkStep env fs f.path = .ok fs') :
    analyze env fs (some f) =
      ⟨.json 200 [("result", t), ("image", dataUri f.mimetype d)], fs',
        [.readFile f.path, .generateContent instruction f.mimetype d, .unlink f.path], []⟩ := by
  simp only [analyze, h, hg, hu, List.cons_append, List.nil_append]

/-- Every run with a file attached ends on the error path with the filesystem
untouched, or on the success path. -/
theorem analyze_some_cases (env : AnalyzeEnv) (fs : FS) (f : UploadedFile) :
    ((analyze env fs (some f)).response = analyzeError ∧ (analyze env fs (some f)).fs = fs) ∨
    (∃ d t fs', readStep env fs f.path = .ok d ∧
      env.generateContent instruction f.mimetype d = .text t ∧
      unlinkStep env fs f.path = .ok fs' ∧
      analyze env fs (some f) =
        ⟨.json 200 [("result", t), ("image", dataUri f.mimetype d)], fs',
          [.readFile f.path, .generateContent instruction f.mimetype d, .unlink f.path],
          []⟩) := by
  rcases h : readStep env fs f.path with e | d
  · left; rw [analyze_read_error env fs f e h]; exact ⟨rfl, rfl⟩
  · rcases hg : env.generateContent instruction f.mimetype d with e | e | t
    · left; rw [analyze_call_failed env fs f d e h hg]; exact ⟨rfl, rfl⟩
    · left; rw [analyze_text_failed env fs f d e h hg]; exact ⟨rfl, rfl⟩
    · rcases hu : unlinkStep env fs f.path with e | fs'
      · left; rw [analyze_unlink_error env fs f d t e h hg hu]; exact ⟨rfl, rfl⟩
      · right; exact ⟨d, t, fs', rfl, hg, rfl, analyze_success env fs fs' f d t h hg hu⟩

theorem readStep_ok (env : AnalyzeEnv) (fs : FS) (p d : String)
    (h : readStep env fs p = .ok d) :
    env.readFault = none ∧ ∃ b, fs p = some b ∧ d = base64 b := by
  unfold readStep at h
  cases hf : env.readFault with
  | some e => simp [hf] at h
  | none =>
    simp only [hf, readFile] at h
    cases hb : fs p with
    | none => simp [hb] at h
    | some b =>
      simp only [hb, Except.ok.injEq] at h
      exact ⟨rfl, b, rfl, h.symm⟩

theorem unlinkStep_ok (env : AnalyzeEnv) (fs fs' : FS) (p : String)
    (h : unlinkStep env fs p = .ok fs') : fs' = fs.erase p := by
  unfold unlinkStep at h
  cases hf : env.unlinkFault with
  | some e => simp [hf] at h
  | none =>
    simp only [hf, unlink] at h
    cases hb : fs p with
    | none => simp [hb] at h
    | some b =>
      simp only [hb, Except.ok.injEq] at h
      exact h.symm

theorem FS.erase_self (fs : FS) (p : String) : fs.erase p p = none := by
  simp [FS.erase]

/-! ## `/analyze`: the claims -/

/-- C1: the answer of `/analyze` has status 400 exactly when no file is
attached; without a file the body has an `error` key, no file is read, no
inference call is made, nothing is deleted and the filesystem is unchanged. -/
theorem analyze_status_400_iff_no_file (env : AnalyzeEnv) (fs : FS)
    (file : Option UploadedFile) :
    ((analyze env fs file).response.status = 400 ↔ file = none) ∧
    ((analyze env fs none).response.field "error").isSome = true ∧
    (analyze env fs none).effects = [] ∧
    (analyze env fs none).fs = fs := by
  refine ⟨?_, rfl, rfl, rfl⟩
  cases file with
  | none => simp [analyze_none, Response.status]
  | some f =>
    simp only [reduceCtorEq, iff_false]
    rcases analyze_some_cases env fs f with ⟨h, _⟩ | ⟨d, t, fs', _, _, _, h⟩
    · rw [h]; decide
    · rw [h]; simp [Response.status]

/-- Witness of C1 on an upload and on a request without a file. -/
theorem analyze_status_400_iff_no_file_witness :
    (analyze (sampleEnv (.text "A fern.")) sampleFS none).response.status = 400 ∧
    (analyze (sampleEnv (.text "A fern.")) sampleFS
      (some (sampleFile "image/png"))).response.status ≠ 400 :=
  ⟨((analyze_status_400_iff_no_file (sampleEnv (.text "A fern.")) sampleFS none).1).2 rfl,
   fun h => Option.some_ne_none _
    (((analyze_status_400_iff_no_file (sampleEnv (.text "A fern.")) sampleFS
      (some (sampleFile "image/png"))).1).1 h)⟩

theorem dropWhile_append_of_forall {α : Type} (p : α → Bool) (l r : List α)
    (h : ∀ x ∈ l, p x = true) : (l ++ r).dropWhile p = r.dropWhile p := by
  induction l with
  | nil => rfl
  | cons x xs ih =>
    have hx : p x = true := h x (List.mem_cons_self x xs)
    simp only [List.cons_append, List.dropWhile_cons, hx, if_true]
    exact ih (fun y hy => h y (List.mem_cons_of_mem x hy))

/-- The part after the first comma of a data URI whose MIME type has no comma
is its payload. -/
theorem afterFirstComma_dataUri (m d : String) (h : ',' ∉ m.data) :
    afterFirstComma (dataUri m d) = d := by
  have hm : ∀ c ∈ "data:".data ++ m.data, (fun c => c != ',') c = true := by
    intro c hc
    rcases List.mem_append.1 hc with hc | hc
    · have hlit : ∀ x ∈ "data:".data, (x != ',') = true := by decide
      exact hlit c hc
    · have : c ≠ ',' := fun e => h (e ▸ hc)
      simpa using this
  have hdata : (dataUri m d).data = ("data:".data ++ m.data) ++ (";base64,".data ++ d.data) := by
    simp [dataUri, String.data_append]
  unfold afterFirstComma
  rw [hdata, dropWhile_append_of_forall _ _ _ hm]
  rfl

/-- A MIME type contains no comma. -/
theorem isMimeType_no_comma (m : String) (h : isMimeType m = true) : ',' ∉ m.data := by
  unfold isMimeType at h
  intro hc
  rw [← List.takeWhile_append_dropWhile isTokenChar m.data] at hc
  rcases List.mem_append.1 hc with hc | hc
  · have := List.mem_takeWhile_imp hc
    exact absurd this (by decide)
  · split at h
    · next subtype heq =>
      rw [heq] at hc
      simp only [Bool.and_eq_true, List.all_eq_true] at h
      rcases List.mem_cons.1 hc with hc | hc
      · exact absurd hc (by decide)
      · exact absurd (h.2 ',' hc) (by decide)
    · exact absurd h (by simp)

/-- C2: for every upload with a declared MIME type `m` that `/analyze` answers
with 200, the upload file held some bytes `b`, the `image` field is exactly
`data:` ++ m ++ `;base64,` ++ base64(b), decoding the part of `image` after
its first comma gives back `b`, and the inference call received the same MIME
type and the same base64 text as the data URI holds. -/
theorem analyze_image_is_data_uri (env : AnalyzeEnv) (fs : FS) (f : UploadedFile)
    (hmime : isMimeType f.mimetype = true)
    (h : (analyze env fs (some f)).response.status = 200) :
    ∃ b img, fs f.path = some b ∧
      (analyze env fs (some f)).response.field "image" = some img ∧
      img = "data:" ++ f.mimetype ++ ";base64," ++ base64 b ∧
      bufferFromBase64 (afterFirstComma img) = b ∧
      Effect.generateContent instruction f.mimetype (base64 b) ∈
        (analyze env fs (some f)).effects := by
  rcases analyze_some_cases env fs f with ⟨he, _⟩ | ⟨d, t, fs', hr, _, _, ha⟩
  · rw [he] at h; exact absurd h (by decide)
  · obtain ⟨_, b, hb, hd⟩ := readStep_ok env fs f.path d hr
    subst hd
    refine ⟨b, dataUri f.mimetype (base64 b), hb, ?_, rfl, ?_, ?_⟩
    · rw [ha]; simp [Response.field, List.lookup]
    · rw [afterFirstComma_dataUri f.mimetype (base64 b) (isMimeType_no_comma _ hmime),
        bufferFromBase64_base64]
    · rw [ha]; simp

/-- Witness of C2: a PNG upload of three bytes. -/
theorem analyze_image_is_data_uri_witness :
    ∃ b img, sampleFS (sampleFile "image/png").path = some b ∧
      (analyze (sampleEnv (.text "A fern.")) sampleFS
        (some (sampleFile "image/png"))).response.field "image" = some img ∧
      img = "data:" ++ (sampleFile "image/png").mimetype ++ ";base64," ++ base64 b ∧
      bufferFromBase64 (afterFirstComma img) = b ∧
      Effect.generateContent instruction (sampleFile "image/png").mimetype (base64 b) ∈
        (analyze (sampleEnv (.text "A fern.")) sampleFS
          (some (sampleFile "image/png"))).effects :=
  analyze_image_is_data_uri (sampleEnv (.text "A fern.")) sampleFS (sampleFile "image/png")
    (by decide) (by decide)

/-- C3 (as the code has it): for an upload whose file exists and is read
without fault, if the inference call returns the text `t` and the deletion
does not fail, the answer is 200 with `result` equal to `t`, so `result` is
non-empty exactly when `t` is. -/
theorem analyze_ok_of_readable (env : AnalyzeEnv) (fs : FS) (f : UploadedFile)
    (b : List Byte) (t : String)
    (hfile : fs f.path = some b) (hread : env.readFault = none)
    (hgen : env.generateContent instruction f.mimetype (base64 b) = .text t)
    (hunlink : env.unlinkFault = none) :
    (analyze env fs (some f)).response.status = 200 ∧
    (analyze env fs (some f)).response.field "result" = some t ∧
    ((analyze env fs (some f)).response.field "result" ≠ some "" ↔ t ≠ "") := by
  have hr : readStep env fs f.path = .ok (base64 b) := by
    simp [readStep, hread, readFile, hfile]
  have hu : unlinkStep env fs f.path = .ok (fs.erase f.path) := by
    simp [unlinkStep, hunlink, unlink, hfile]
  rw [analyze_success env fs _ f _ t hr hgen hu]
  refine ⟨rfl, ?_, ?_⟩
  · simp [Response.field, List.lookup]
  · simp [Response.field, List.lookup]

/-- Witness of C3: a readable upload and a provider that returns a text. -/
theorem analyze_ok_of_readable_witness :
    (analyze (sampleEnv (.text "A fern.")) sampleFS
      (some (sampleFile "image/jpeg"))).response.status = 200 ∧
    (analyze (sampleEnv (.text "A fern.")) sampleFS
      (some (sampleFile "image/jpeg"))).response.field "result" = some "A fern." ∧
    ((analyze (sampleEnv (.text "A fern.")) sampleFS
      (some (sampleFile "image/jpeg"))).response.field "result" ≠ some "" ↔ "A fern." ≠ "") :=
  analyze_ok_of_readable (sampleEnv (.text "A fern.")) sampleFS (sampleFile "image/jpeg")
    [77, 97, 110] "A fern." (by decide) rfl rfl rfl

/-- C3 as stated fails: a file is attached and readable, yet a failing
inference call gives 500, and a provider that returns the empty text gives 200
with an empty `result`. -/
theorem analyze_valid_upload_counterexample :
    sampleFS (sampleFile "image/jpeg").path = some [77, 97, 110] ∧
    (analyze (sampleEnv (.callFailed "503 Service Unavailable")) sampleFS
      (some (sampleFile "image/jpeg"))).response.status = 500 ∧
    (analyze (sampleEnv (.text "")) sampleFS
      (some (sampleFile "image/jpeg"))).response.status = 200 ∧
    (analyze (sampleEnv (.text "")) sampleFS
      (some (sampleFile "image/jpeg"))).response.field "result" = some "" := by
  decide

/-- C4: for a request with a file attached, an answer of 200 means the temp
file is gone; any other answer leaves the filesystem as it was, so a file that
existed still exists; and when the read, the inference call or the text
extraction fails, the answer is 500, no deletion is issued and the filesystem
is unchanged. -/
theorem analyze_deletes_only_on_success (env : AnalyzeEnv) (fs : FS) (f : UploadedFile) :
    ((analyze env fs (some f)).response.status = 200 →
      (analyze env fs (some f)).fs f.path = none) ∧
    ((analyze env fs (some f)).response.status ≠ 200 →
      (analyze env fs (some f)).fs = fs) ∧
    (∀ e, readStep env fs f.path = .error e →
      (analyze env fs (some f)).response.status = 500 ∧
      (analyze env fs (some f)).fs = fs ∧
      Effect.unlink f.path ∉ (analyze env fs (some f)).effects) ∧
    (∀ d e, readStep env fs f.path = .ok d →
      (env.generateContent instruction f.mimetype d = .callFailed e ∨
        env.generateContent instruction f.mimetype d = .textFailed e) →
      (analyze env fs (some f)).response.status = 500 ∧
      (analyze env fs (some f)).fs = fs ∧
      Effect.unlink f.path ∉ (analyze env fs (some f)).effects) := by
  refine ⟨?_, ?_, ?_, ?_⟩
  · intro h
    rcases analyze_some_cases env fs f with ⟨he, _⟩ | ⟨d, t, fs', _, _, hu, ha⟩
    · rw [he] at h; exact absurd h (by decide)
    · rw [ha, unlinkStep_ok env fs fs' f.path hu]
      exact FS.erase_self fs f.path
  · intro h
    rcases analyze_some_cases env fs f with ⟨_, hfs⟩ | ⟨d, t, fs', _, _, _, ha⟩
    · exact hfs
    · rw [ha] at h; exact absurd rfl h
  · intro e h
    rw [analyze_read_error env fs f e h]
    exact ⟨rfl, rfl, by simp⟩
  · intro d e h hg
    rcases hg with hg | hg
    · rw [analyze_call_failed env fs f d e h hg]
      exact ⟨rfl, rfl, by simp⟩
    · rw [analyze_text_failed env fs f d e h hg]
      exact ⟨rfl, rfl, by simp⟩

/-- Witness of C4: the upload is deleted after a 200, and is still there after
a provider failure. -/
theorem analyze_deletes_only_on_success_witness :
    (analyze (sampleEnv (.text "A fern.")) sampleFS (some (sampleFile "image/png"))).fs
      "uploads/3f2a" = none ∧
    (analyze (sampleEnv (.callFailed "quota")) sampleFS (some (sampleFile "image/png"))).fs
      "uploads/3f2a" = some [77, 97, 110] :=
  ⟨(analyze_deletes_only_on_success (sampleEnv (.text "A fern.")) sampleFS
      (sampleFile "image/png")).1 (by decide),
   by
    rw [(analyze_deletes_only_on_success (sampleEnv (.callFailed "quota")) sampleFS
      (sampleFile "image/png")).2.1 (by decide)]
    decide⟩

/-- C5: for a request with a file attached, whichever step fails (the read,
the inference call, the text extraction or the deletion) and whatever its
message, the answer is the same: status 500 with the one body
`error: "An error occurred while analyzing the image."`; and every answer of
the handler has status 200, 400 or 500. -/
theorem analyze_failure_is_generic_500 (env : AnalyzeEnv) (fs : FS) (f : UploadedFile) :
    analyzeError = .json 500 [("error", "An error occurred while analyzing the image.")] ∧
    (∀ e, readStep env fs f.path = .error e →
      (analyze env fs (some f)).response = analyzeError) ∧
    (∀ d e, readStep env fs f.path = .ok d →
      env.generateContent instruction f.mimetype d = .callFailed e →
      (analyze env fs (some f)).response = analyzeError) ∧
    (∀ d e, readStep env fs f.path = .ok d →
      env.generateContent instruction f.mimetype d = .textFailed e →
      (analyze env fs (some f)).response = analyzeError) ∧
    (∀ d t e, readStep env fs f.path = .ok d →
      env.generateContent instruction f.mimetype d = .text t →
      unlinkStep env fs f.path = .error e →
      (analyze env fs (some f)).response = analyzeError) ∧
    ((analyze env fs (some f)).response.status ≠ 200 →
      (analyze env fs (some f)).response = analyzeError) ∧
    (∀ file, (analyze env fs file).response.status = 200 ∨
      (analyze env fs file).response.status = 400 ∨
      (analyze env fs file).response.status = 500) := by
  refine ⟨rfl, ?_, ?_, ?_, ?_, ?_, ?_⟩
  · intro e h; rw [analyze_read_error env fs f e h]
  · intro d e h hg; rw [analyze_call_failed env fs f d e h hg]
  · intro d e h hg; rw [analyze_text_failed env fs f d e h hg]
  · intro d t e h hg hu; rw [analyze_unlink_error env fs f d t e h hg hu]
  · intro h
    rcases analyze_some_cases env fs f with ⟨he, _⟩ | ⟨d, t, fs', _, _, _, ha⟩
    · exact he
    · rw [ha] at h; exact absurd rfl h
  · intro file
    cases file with
    | none => right; left; rfl
    | some g =>
      rcases analyze_some_cases env fs g with ⟨he, _⟩ | ⟨d, t, fs', _, _, _, ha⟩
      · right; right; rw [he]; rfl
      · left; rw [ha]; rfl

/-- Witness of C5: a missing temp file and a failing deletion give the same
answer. -/
theorem analyze_failure_is_generic_500_witness :
    (analyze (sampleEnv (.text "A fern.")) emptyFS (some (sampleFile "image/png"))).response =
      analyzeError ∧
    (analyze ⟨none, fun _ _ _ => .text "A fern.", some "EPERM"⟩ sampleFS
      (some (sampleFile "image/png"))).response = analyzeError :=
  ⟨(analyze_failure_is_generic_500 (sampleEnv (.text "A fern.")) emptyFS
      (sampleFile "image/png")).2.1 "ENOENT: no such file or directory, open" rfl,
   (analyze_failure_is_generic_500 ⟨none, fun _ _ _ => .text "A fern.", some "EPERM"⟩ sampleFS
      (sampleFile "image/png")).2.2.2.2.1 (base64 [77, 97, 110]) "A fern." "EPERM"
      rfl rfl rfl⟩

/-! ## The pattern match: what `replace` cuts off -/

theorem matchAtoms_chr_append (l : List Char) (rest : List Atom) (s : List Char) :
    matchAtoms (l.map Atom.chr ++ rest) (l ++ s) = matchAtoms rest s := by
  induction l with
  | nil => rfl
  | cons c cs ih => simp [matchAtoms, ih]

theorem matchAtoms_chr_some (l : List Char) (rest : List Atom) :
    ∀ (s r : List Char), matchAtoms (l.map Atom.chr ++ rest) s = some r →
      ∃ s', s = l ++ s' ∧ matchAtoms rest s' = some r := by
  induction l with
  | nil => intro s r h; exact ⟨s, rfl, h⟩
  | cons c cs ih =>
    intro s r h
    cases s with
    | nil => simp [matchAtoms] at h
    | cons x xs =>
      simp only [List.map_cons, List.cons_append, matchAtoms] at h
      by_cases hx : x = c
      · rw [if_pos hx] at h
        obtain ⟨s', hs, hm⟩ := ih xs r h
        exact ⟨s', by rw [hx, hs]; rfl, hm⟩
      · rw [if_neg hx] at h
        exact absurd h (by simp)

theorem firstMatch_some {α : Type} (f : Nat → Option α) (r : α) :
    ∀ n, firstMatch f n = some r → ∃ k, 1 ≤ k ∧ k ≤ n ∧ f k = some r := by
  intro n
  induction n with
  | zero => intro h; simp [firstMatch] at h
  | succ n ih =>
    intro h
    unfold firstMatch at h
    cases hf : f (n + 1) with
    | some v =>
      rw [hf] at h
      exact ⟨n + 1, by omega, le_refl _, by rw [hf]; exact h⟩
    | none =>
      rw [hf] at h
      obtain ⟨k, h1, h2, h3⟩ := ih h
      exact ⟨k, h1, by omega, h3⟩

theorem takeWhile_append_stop {α : Type} (p : α → Bool) (w : List α) (c : α) (t : List α)
    (hw : ∀ x ∈ w, p x = true) (hc : p c = false) : (w ++ c :: t).takeWhile p = w := by
  induction w with
  | nil => simp [List.takeWhile, hc]
  | cons x xs ih =>
    have hx : p x = true := hw x (List.mem_cons_self x xs)
    simp only [List.cons_append, List.takeWhile_cons, hx, if_true]
    rw [ih (fun y hy => hw y (List.mem_cons_of_mem x hy))]

theorem take_all_of_le_takeWhile {α : Type} (p : α → Bool) :
    ∀ (s : List α) (k : Nat), k ≤ (s.takeWhile p).length → ∀ x ∈ s.take k, p x = true := by
  intro s
  induction s with
  | nil => intro k _ x hx; simp at hx
  | cons a t ih =>
    intro k hk x hx
    cases k with
    | zero => simp at hx
    | succ k =>
      by_cases ha : p a = true
      · simp only [List.takeWhile_cons, ha, if_true, List.length_cons] at hk
        simp only [List.take_succ_cons, List.mem_cons] at hx
        rcases hx with rfl | hx
        · exact ha
        · exact ih k (by omega) x hx
      · simp [List.takeWhile_cons, ha] at hk

/-- The pattern matches exactly the strings made of `data:image/`, a non-empty
run of word characters, `;base64,` and a rest; the match leaves the rest. -/
theorem matchAtoms_dataUriPattern (s r : List Char) :
    matchAtoms dataUriPattern s = some r ↔
      ∃ w, w ≠ [] ∧ (∀ c ∈ w, isWordChar c = true) ∧
        s = "data:image/".toList ++ w ++ ";base64,".toList ++ r := by
  have hpat : dataUriPattern = "data:image/".toList.map Atom.chr ++
      (Atom.wordPlus :: (";base64,".toList.map Atom.chr ++ [])) := by
    simp [dataUriPattern]
  constructor
  · intro h
    rw [hpat] at h
    obtain ⟨s', hs, hm⟩ := matchAtoms_chr_some _ _ s r h
    simp only [matchAtoms] at hm
    obtain ⟨k, hk1, hk2, hk⟩ := firstMatch_some _ r _ hm
    obtain ⟨s'', hd, hnil⟩ := matchAtoms_chr_some _ _ _ r hk
    simp only [matchAtoms, Option.some.injEq] at hnil
    subst hnil
    have hlen : (s'.takeWhile isWordChar).length ≤ s'.length :=
      (List.takeWhile_sublist isWordChar).length_le
    refine ⟨s'.take k, ?_, take_all_of_le_takeWhile isWordChar s' k hk2, ?_⟩
    · intro hnil
      have : (s'.take k).length = 0 := by rw [hnil]; rfl
      rw [List.length_take] at this
      omega
    · rw [hs, List.append_assoc, List.append_assoc, ← hd, List.take_append_drop]
  · rintro ⟨w, hne, hw, rfl⟩
    rw [hpat, List.append_assoc, List.append_assoc, matchAtoms_chr_append]
    simp only [matchAtoms]
    have hstop : (w ++ (";base64,".toList ++ r)).takeWhile isWordChar = w :=
      takeWhile_append_stop isWordChar w ';' ("base64,".toList ++ r) hw (by decide)
    rw [hstop]
    obtain ⟨n, hn⟩ : ∃ n, w.length = n + 1 := by
      cases w with
      | nil => exact absurd rfl hne
      | cons x xs => exact ⟨xs.length, rfl⟩
    rw [hn]
    unfold firstMatch
    rw [← hn, List.drop_left, matchAtoms_chr_append]
    simp [matchAtoms]

/-- A string of the shape of the pattern loses exactly that head. -/
theorem replaceAnchored_of_shape (w r : List Char) (hne : w ≠ [])
    (hw : ∀ c ∈ w, isWordChar c = true) :
    replaceAnchored dataUriPattern ⟨"data:image/".toList ++ w ++ ";base64,".toList ++ r⟩
      = ⟨r⟩ := by
  unfold replaceAnchored
  rw [(matchAtoms_dataUriPattern _ r).2 ⟨w, hne, hw, rfl⟩]

/-- A string that does not have the shape of the pattern is left as it is. -/
theorem replaceAnchored_of_not_shape (s : String)
    (h : ¬ ∃ w r, w ≠ [] ∧ (∀ c ∈ w, isWordChar c = true) ∧
      s.data = "data:image/".toList ++ w ++ ";base64,".toList ++ r) :
    replaceAnchored dataUriPattern s = s := by
  unfold replaceAnchored
  cases hm : matchAtoms dataUriPattern s.data with
  | none => rfl
  | some r =>
    obtain ⟨w, hne, hw, hs⟩ := (matchAtoms_dataUriPattern _ r).1 hm
    exact absurd ⟨w, r, hne, hw, hs⟩ h

/-! ## The timestamp in the report name -/

theorem digitChar_inj : ∀ a, a < 10 → ∀ b, b < 10 →
    Nat.digitChar a = Nat.digitChar b → a = b := by
  decide

theorem toDigitsCore_acc (f : Nat) : ∀ (n : Nat) (ds : List Char),
    Nat.toDigitsCore 10 f n ds = Nat.toDigitsCore 10 f n [] ++ ds := by
  induction f with
  | zero => intro n ds; simp [Nat.toDigitsCore]
  | succ f ih =>
    intro n ds
    simp only [Nat.toDigitsCore]
    by_cases h : n / 10 = 0
    · simp [h]
    · simp only [h, if_false]
      rw [ih (n / 10) (Nat.digitChar (n % 10) :: ds), ih (n / 10) [Nat.digitChar (n % 10)]]
      simp

theorem toDigitsCore_succ (f n : Nat) :
    Nat.toDigitsCore 10 (f + 1) n [] =
      (if n / 10 = 0 then [] else Nat.toDigitsCore 10 f (n / 10) []) ++
        [Nat.digitChar (n % 10)] := by
  simp only [Nat.toDigitsCore]
  by_cases h : n / 10 = 0
  · simp [h]
  · simp only [h, if_false]
    exact toDigitsCore_acc f (n / 10) _

theorem toDigitsCore_inj (f : Nat) : ∀ (f' n m : Nat), n < f → m < f' →
    Nat.toDigitsCore 10 f n [] = Nat.toDigitsCore 10 f' m [] → n = m := by
  induction f with
  | zero => intro f' n m hn; omega
  | succ f ih =>
    intro f' n m hn hm h
    cases f' with
    | zero => omega
    | succ f' =>
      rw [toDigitsCore_succ, toDigitsCore_succ] at h
      have hlast := List.append_inj' h rfl
      have hd : n % 10 = m % 10 :=
        digitChar_inj _ (Nat.mod_lt _ (by decide)) _ (Nat.mod_lt _ (by decide))
          (List.head_eq_of_cons_eq hlast.2)
      have hinit := hlast.1
      by_cases h1 : n / 10 = 0
      · by_cases h2 : m / 10 = 0
        · omega
        · rw [if_pos h1, if_neg h2] at hinit
          cases f' with
          | zero => omega
          | succ g =>
            rw [toDigitsCore_succ] at hinit
            exact absurd hinit (by simp)
      · by_cases h2 : m / 10 = 0
        · rw [if_neg h1, if_pos h2] at hinit
          cases f with
          | zero => omega
          | succ g =>
            rw [toDigitsCore_succ] at hinit
            exact absurd hinit (by simp)
        · rw [if_neg h1, if_neg h2] at hinit
          have := ih f' (n / 10) (m / 10) (by omega) (by omega) hinit
          omega

/-- Decimal printing is injective. -/
theorem repr_inj (a b : Nat) (h : Nat.repr a = Nat.repr b) : a = b := by
  have hdata : (Nat.repr a).data = (Nat.repr b).data := by rw [h]
  simp only [Nat.repr, Nat.toDigits, List.asString] at hdata
  exact toDigitsCore_inj (a + 1) (b + 1) a b (by omega) (by omega) hdata

theorem filename_inj (a b : Nat) (h : filename a = filename b) : a = b := by
  have hdata : (filename a).data = (filename b).data := by rw [h]
  simp only [filename, String.data_append] at hdata
  have h1 := List.append_cancel_right hdata
  have h2 := List.append_cancel_left h1
  exact repr_inj a b (String.ext h2)

/-- C7 (as the code has it): the names of two reports are equal exactly when
the two requests read the same millisecond timestamp; they differ exactly when
the timestamps differ. -/
theorem filename_eq_iff_same_timestamp (t1 t2 : Nat) :
    (filename t1 = filename t2 ↔ t1 = t2) ∧ (filename t1 ≠ filename t2 ↔ t1 ≠ t2) := by
  have h : filename t1 = filename t2 ↔ t1 = t2 :=
    ⟨filename_inj t1 t2, fun e => by rw [e]⟩
  exact ⟨h, not_congr h⟩

/-- Witness of C7: two requests one millisecond apart get different names. -/
theorem filename_eq_iff_same_timestamp_witness :
    filename 1700000000000 ≠ filename 1700000000001 :=
  (filename_eq_iff_same_timestamp 1700000000000 1700000000001).2.2 (by decide)

/-- C7 as stated fails: two `/download` requests with identical input that read
the same millisecond timestamp write to, and send, the same report name. -/
theorem download_same_millisecond_counterexample :
    (sampleDownloadEnv none none none).now = (sampleDownloadEnv none none (some "aborted")).now ∧
    filename (sampleDownloadEnv none none none).now =
      filename (sampleDownloadEnv none none (some "aborted")).now ∧
    (download (sampleDownloadEnv none none none) emptyFS ⟨"Healthy fern.", none⟩).effects =
      (download (sampleDownloadEnv none none (some "aborted")) emptyFS
        ⟨"Healthy fern.", none⟩).effects ∧
    Effect.createWriteStream "/srv/app/reports/plant_analysis_report_1700000000000.pdf" ∈
      (download (sampleDownloadEnv none none none) emptyFS ⟨"Healthy fern.", none⟩).effects := by
  decide

/-! ## `/download`: one lemma per path through the handler -/

theorem unlink_write (fs : FS) (p : String) (content : List Byte) :
    unlink (fs.write p content) p = .ok ((fs.write p content).erase p) := by
  simp [unlink, FS.write]

theorem erase_write_other (fs : FS) (p q : String) (content : List Byte) (h : q ≠ p) :
    (fs.write p content).erase p q = fs q := by
  simp [FS.erase, FS.write, h]

theorem download_mkdir_fault (env : DownloadEnv) (fs : FS) (body : ReportBody) (e : String)
    (h : env.mkdirFault = some e) :
    download env fs body =
      ⟨⟨downloadError, fs, [.mkdir env.reportsDir], ["Error generating PDF report: " ++ e]⟩,
        none, none⟩ := by
  simp only [download, h]

theorem download_image_error (env : DownloadEnv) (fs : FS) (body : ReportBody) (e : String)
    (hm : env.mkdirFault = none) (hi : imageError env body.image = some e) :
    download env fs body =
      ⟨⟨downloadError, leftOnDisk env fs (reportPath env.reportsDir env.now),
          [.mkdir env.reportsDir, .createWriteStream (reportPath env.reportsDir env.now)],
          ["Error generating PDF report: " ++ e]⟩,
        some (textOps body.result env.localeDate ++ imageOps body.image), none⟩ := by
  simp only [download, hm, hi]

theorem download_write_fault (env : DownloadEnv) (fs : FS) (body : ReportBody) (e : String)
    (hm : env.mkdirFault = none) (hi : imageError env body.image = none)
    (hw : env.writeFault = some e) :
    download env fs body =
      ⟨⟨downloadError, leftOnDisk env fs (reportPath env.reportsDir env.now),
          [.mkdir env.reportsDir, .createWriteStream (reportPath env.reportsDir env.now)],
          ["Error generating PDF report: " ++ e]⟩,
        some (textOps body.result env.localeDate ++ imageOps body.image ++ [.endDoc]),
        none⟩ := by
  simp only [download, hm, hi, hw]

theorem download_send_fault (env : DownloadEnv) (fs : FS) (body : ReportBody) (e : String)
    (hm : env.mkdirFault = none) (hi : imageError env body.image = none)
    (hw : env.writeFault = none) (hs : env.sendFault = some e) (hh : env.headersSent = false) :
    download env fs body =
      ⟨⟨sendError,
          (fs.write (reportPath env.reportsDir env.now)
            (env.render
              (textOps body.result env.localeDate ++ imageOps body.image ++ [.endDoc]))).erase
            (reportPath env.reportsDir env.now),
          [.mkdir env.reportsDir, .createWriteStream (reportPath env.reportsDir env.now),
            .sendFile (reportPath env.reportsDir env.now),
            .unlink (reportPath env.reportsDir env.now)],
          ["Error downloading PDF: " ++ e]⟩,
        some (textOps body.result env.localeDate ++ imageOps body.image ++ [.endDoc]),
        none⟩ := by
  simp [download, hm, hi, hw, hs, hh, unlink_write]

theorem download_send_aborted (env : DownloadEnv) (fs : FS) (body : ReportBody) (e : String)
    (hm : env.mkdirFault = none) (hi : imageError env body.image = none)
    (hw : env.writeFault = none) (hs : env.sendFault = some e) (hh : env.headersSent = true) :
    download env fs body =
      ⟨⟨.aborted (reportPath env.reportsDir env.now),
          fs.write (reportPath env.reportsDir env.now)
            (env.render
              (textOps body.result env.localeDate ++ imageOps body.image ++ [.endDoc])),
          [.mkdir env.reportsDir, .createWriteStream (reportPath env.reportsDir env.now),
            .sendFile (reportPath env.reportsDir env.now)],
          ["Error downloading PDF: " ++ e]⟩,
        some (textOps body.result env.localeDate ++ imageOps body.image ++ [.endDoc]),
        some headersSentError⟩ := by
  simp [download, hm, hi, hw, hs, hh]

theorem download_sent (env : DownloadEnv) (fs : FS) (body : ReportBody)
    (hm : env.mkdirFault = none) (hi : imageError env body.image = none)
    (hw : env.writeFault = none) (hs : env.sendFault = none) :
    download env fs body =
      ⟨⟨.download (reportPath env.reportsDir env.now)
            (env.render
              (textOps body.result env.localeDate ++ imageOps body.image ++ [.endDoc])),
          (fs.write (reportPath env.reportsDir env.now)
            (env.render
              (textOps body.result env.localeDate ++ imageOps body.image ++ [.endDoc]))).erase
            (reportPath env.reportsDir env.now),
          [.mkdir env.reportsDir, .createWriteStream (reportPath env.reportsDir env.now),
            .sendFile (reportPath env.reportsDir env.now),
            .unlink (reportPath env.reportsDir env.now)], []⟩,
        some (textOps body.result env.localeDate ++ imageOps body.image ++ [.endDoc]),
        none⟩ := by
  simp only [download, hm, hi, hw, hs, unlink_write, List.cons_append, List.nil_append]

/-- Once the directory exists a document is built: the text calls, the image
calls, and `end` unless the image call threw. -/
theorem download_document (env : DownloadEnv) (fs : FS) (body : ReportBody)
    (hm : env.mkdirFault = none) :
    (download env fs body).document =
        some (textOps body.result env.localeDate ++ imageOps body.image) ∨
    (download env fs body).document =
        some (textOps body.result env.localeDate ++ imageOps body.image ++ [.endDoc]) := by
  cases hi : imageError env body.image with
  | some e => left; rw [download_image_error env fs body e hm hi]
  | none =>
    right
    cases hw : env.writeFault with
    | some e => rw [download_write_fault env fs body e hm hi hw]
    | none =>
      cases hs : env.sendFault with
      | some e =>
        cases hh : env.headersSent with
        | false => rw [download_send_fault env fs body e hm hi hw hs hh]
        | true => rw [download_send_aborted env fs body e hm hi hw hs hh]
      | none => rw [download_sent env fs body hm hi hw hs]

theorem imageOps_of_truthy (s : String) (h : s ≠ "") :
    imageOps (some s) = [.addPage, .image (imageBuffer s) 500 400] := by
  simp [imageOps, truthy, h]

theorem imageOps_of_falsy (image : Option String) (h : image = none ∨ image = some "") :
    imageOps image = [] := by
  rcases h with rfl | rfl
  · rfl
  · simp [imageOps, truthy]

theorem imageError_of_falsy (env : DownloadEnv) (image : Option String)
    (h : image = none ∨ image = some "") : imageError env image = none := by
  rcases h with rfl | rfl
  · rfl
  · simp [imageError, truthy]

theorem pageCount_eq_one (overflow : DocOp → Nat) (ops : List DocOp)
    (h1 : DocOp.addPage ∉ ops) (h2 : ∀ op ∈ ops, overflow op = 0) :
    pageCount overflow ops = 1 := by
  unfold pageCount
  have hsum : (ops.map (fun op => if op = DocOp.addPage then 1 else overflow op)).sum = 0 := by
    induction ops with
    | nil => rfl
    | cons a t ih =>
      have ha : a ≠ DocOp.addPage := fun e => h1 (e ▸ List.mem_cons_self a t)
      simp only [List.map_cons, List.sum_cons, if_neg ha, h2 a (List.mem_cons_self a t),
        Nat.zero_add]
      exact ih (fun hm => h1 (List.mem_cons_of_mem a hm))
        (fun op hop => h2 op (List.mem_cons_of_mem a hop))
  rw [hsum]

theorem pageCount_gt_one (overflow : DocOp → Nat) (ops : List DocOp)
    (h : DocOp.addPage ∈ ops) : 1 < pageCount overflow ops := by
  unfold pageCount
  have hsum : 0 < (ops.map (fun op => if op = DocOp.addPage then 1 else overflow op)).sum := by
    induction ops with
    | nil => simp at h
    | cons a t ih =>
      simp only [List.map_cons, List.sum_cons]
      rcases List.mem_cons.1 h with rfl | ht
      · simp
      · have := ih ht
        omega
  omega

/-! ## `/download`: the claims -/

/-- C6 (as the code has it): for every `/download` request whose reports
directory is created, a document is built; with a non-empty `image` string its
calls are the text calls, then one `addPage` directly followed by one image
draw of the decoded buffer, and nothing else but a final `end`, so it has more
than one page; with `image` absent or empty there is no `addPage` and no image
draw, so it has one page whenever the text calls do not overflow. -/
theorem download_document_pages (env : DownloadEnv) (fs : FS) (body : ReportBody)
    (hm : env.mkdirFault = none) :
    ∃ d, (download env fs body).document = some d ∧
      (∀ s, body.image = some s → s ≠ "" →
        (∃ post, d = textOps body.result env.localeDate ++
            [.addPage, .image (imageBuffer s) 500 400] ++ post ∧
          (post = [] ∨ post = [.endDoc])) ∧
        d.count DocOp.addPage = 1 ∧ (d.filter DocOp.isImage).length = 1 ∧
        ∀ overflow, 1 < pageCount overflow d) ∧
      ((body.image = none ∨ body.image = some "") →
        d.count DocOp.addPage = 0 ∧ d.filter DocOp.isImage = [] ∧
        ∀ overflow, (∀ op ∈ d, overflow op = 0) → pageCount overflow d = 1) := by
  rcases download_document env fs body hm with hd | hd
  · refine ⟨_, hd, ?_, ?_⟩
    · intro s hs hne
      rw [hs, imageOps_of_truthy s hne]
      refine ⟨⟨[], by simp, Or.inl rfl⟩, ?_, ?_, fun ov => pageCount_gt_one ov _ (by simp)⟩
      · simp [textOps, List.count_cons]
      · simp [textOps, List.filter, DocOp.isImage]
    · intro hf
      rw [imageOps_of_falsy body.image hf]
      refine ⟨?_, ?_, fun ov h => pageCount_eq_one ov _ (by simp [textOps]) h⟩
      · simp [textOps, List.count_cons]
      · simp [textOps, List.filter, DocOp.isImage]
  · refine ⟨_, hd, ?_, ?_⟩
    · intro s hs hne
      rw [hs, imageOps_of_truthy s hne]
      refine ⟨⟨[.endDoc], by simp, Or.inr rfl⟩, ?_, ?_,
        fun ov => pageCount_gt_one ov _ (by simp)⟩
      · simp [textOps, List.count_cons]
      · simp [textOps, List.filter, DocOp.isImage]
    · intro hf
      rw [imageOps_of_falsy body.image hf]
      refine ⟨?_, ?_, fun ov h => pageCount_eq_one ov _ (by simp [textOps]) h⟩
      · simp [textOps, List.count_cons]
      · simp [textOps, List.filter, DocOp.isImage]

/-- Witness of C6: the request with result `Healthy fern.` and no image. -/
theorem download_document_pages_witness :
    ∃ d, (download (sampleDownloadEnv none none none) emptyFS
        ⟨"Healthy fern.", none⟩).document = some d ∧
      (∀ s, (⟨"Healthy fern.", none⟩ : ReportBody).image = some s → s ≠ "" →
        (∃ post, d = textOps "Healthy fern." "11/4/2026" ++
            [.addPage, .image (imageBuffer s) 500 400] ++ post ∧
          (post = [] ∨ post = [.endDoc])) ∧
        d.count DocOp.addPage = 1 ∧ (d.filter DocOp.isImage).length = 1 ∧
        ∀ overflow, 1 < pageCount overflow d) ∧
      (((⟨"Healthy fern.", none⟩ : ReportBody).image = none ∨
          (⟨"Healthy fern.", none⟩ : ReportBody).image = some "") →
        d.count DocOp.addPage = 0 ∧ d.filter DocOp.isImage = [] ∧
        ∀ overflow, (∀ op ∈ d, overflow op = 0) → pageCount overflow d = 1) :=
  download_document_pages (sampleDownloadEnv none none none) emptyFS ⟨"Healthy fern.", none⟩ rfl

/-- C6 as stated fails: the body carries a non-empty `image` string, the
directory creation fails, and the handler builds no document at all: it issues
no `addPage` and no image draw, and answers 500. -/
theorem download_image_without_document_counterexample :
    (download (sampleDownloadEnv (some "EACCES: permission denied, mkdir") none none) emptyFS
      ⟨"Healthy fern.", some "data:image/png;base64,TWFu"⟩).document = none ∧
    (download (sampleDownloadEnv (some "EACCES: permission denied, mkdir") none none) emptyFS
      ⟨"Healthy fern.", some "data:image/png;base64,TWFu"⟩).effects =
      [.mkdir "/srv/app/reports"] ∧
    (download (sampleDownloadEnv (some "EACCES: permission denied, mkdir") none none) emptyFS
      ⟨"Healthy fern.", some "data:image/png;base64,TWFu"⟩).response.status = 500 := by
  decide

/-- C8 (as the code has it): for every `/download` request without an image in
which the directory creation, the write stream and the transfer do not fail,
the document is made of exactly these calls in this order: font size 24, the
title `Plant Analysis Report` centred, a move down, font size 14, the line
`Date: ` followed by the date, a move down, font size 12, the `result` string
as supplied, left-aligned, and `end`; the answer is the download of the report
file, byte for byte what the PDF library wrote for these calls, so it begins
with `%PDF-` for a library whose output begins with `%PDF-`. -/
theorem download_text_report (env : DownloadEnv) (fs : FS) (body : ReportBody)
    (himg : body.image = none ∨ body.image = some "")
    (hm : env.mkdirFault = none) (hw : env.writeFault = none) (hs : env.sendFault = none)
    (hlib : ∀ ops, (env.render ops).take 5 = pdfSignature) :
    (download env fs body).document =
      some [.fontSize 24, .text "Plant Analysis Report" (some .center), .moveDown,
        .fontSize 14, .text ("Date: " ++ env.localeDate) none, .moveDown,
        .fontSize 12, .text body.result (some .left), .endDoc] ∧
    ∃ content, (download env fs body).response =
        .download (reportPath env.reportsDir env.now) content ∧
      content = env.render
        [.fontSize 24, .text "Plant Analysis Report" (some .center), .moveDown,
          .fontSize 14, .text ("Date: " ++ env.localeDate) none, .moveDown,
          .fontSize 12, .text body.result (some .left), .endDoc] ∧
      content.take 5 = pdfSignature := by
  rw [download_sent env fs body hm (imageError_of_falsy env body.image himg) hw hs,
    imageOps_of_falsy body.image himg]
  exact ⟨rfl, _, rfl, rfl, hlib _⟩

/-- Witness of C8: the request with result `Healthy fern.` and no image. -/
theorem download_text_report_witness :
    (download (sampleDownloadEnv none none none) emptyFS ⟨"Healthy fern.", none⟩).document =
      some [.fontSize 24, .text "Plant Analysis Report" (some .center), .moveDown,
        .fontSize 14, .text "Date: 11/4/2026" none, .moveDown,
        .fontSize 12, .text "Healthy fern." (some .left), .endDoc] ∧
    (download (sampleDownloadEnv none none none) emptyFS ⟨"Healthy fern.", none⟩).response =
      .download "/srv/app/reports/plant_analysis_report_1700000000000.pdf"
        [37, 80, 68, 70, 45, 49, 46, 51, 10] := by
  obtain ⟨hdoc, content, hresp, hcontent, _⟩ :=
    download_text_report (sampleDownloadEnv none none none) emptyFS ⟨"Healthy fern.", none⟩
      (Or.inl rfl) rfl rfl rfl (fun _ => rfl)
  refine ⟨hdoc, ?_⟩
  rw [hresp, hcontent]
  decide

/-- C8 as stated fails: a request with a non-empty `result` and no image whose
directory creation fails is answered with the JSON error of status 500, not
with a PDF byte stream, and no document is written. -/
theorem download_text_report_counterexample :
    (download (sampleDownloadEnv (some "EACCES: permission denied, mkdir") none none) emptyFS
      ⟨"Healthy fern.", none⟩).response = downloadError ∧
    (download (sampleDownloadEnv (some "EACCES: permission denied, mkdir") none none) emptyFS
      ⟨"Healthy fern.", none⟩).response.status = 500 ∧
    (download (sampleDownloadEnv (some "EACCES: permission denied, mkdir") none none) emptyFS
      ⟨"Healthy fern.", none⟩).document = none := by
  decide

/-- C9 (as the code has it): when the handler reaches the send step (the
directory exists, no document call threw, the write stream finished) and the
transfer succeeds, or fails before the response headers have gone out, it
issues the deletion of the report file last, after the transfer; afterwards
the report path does not exist and every other path is as before; such a
failed transfer is also answered with a 500 that has an `error` body.  When a
stage before the send fails, the answer is 500 with the body
`error: "An error occurred while generating the PDF report."` and no deletion
is issued. -/
theorem download_report_cleanup (env : DownloadEnv) (fs : FS) (body : ReportBody) :
    (env.mkdirFault = none → imageError env body.image = none → env.writeFault = none →
      (env.sendFault = none ∨ env.headersSent = false) →
      (download env fs body).effects =
        [.mkdir env.reportsDir, .createWriteStream (reportPath env.reportsDir env.now),
          .sendFile (reportPath env.reportsDir env.now),
          .unlink (reportPath env.reportsDir env.now)] ∧
      (download env fs body).fs (reportPath env.reportsDir env.now) = none ∧
      (∀ q, q ≠ reportPath env.reportsDir env.now → (download env fs body).fs q = fs q) ∧
      (∀ e, env.sendFault = some e →
        (download env fs body).response = sendError ∧
        (download env fs body).response.status = 500 ∧
        ((download env fs body).response.field "error").isSome = true) ∧
      (env.sendFault = none → ∃ content, (download env fs body).response =
        .download (reportPath env.reportsDir env.now) content)) ∧
    ((env.mkdirFault ≠ none ∨ imageError env body.image ≠ none ∨ env.writeFault ≠ none) →
      (download env fs body).response =
        .json 500 [("error", "An error occurred while generating the PDF report.")] ∧
      ∀ q, Effect.unlink q ∉ (download env fs body).effects) := by
  constructor
  · intro hm hi hw hsent
    cases hs : env.sendFault with
    | some e =>
      have hh : env.headersSent = false := by
        rcases hsent with h | h
        · rw [hs] at h; exact absurd h (by simp)
        · exact h
      rw [download_send_fault env fs body e hm hi hw hs hh]
      refine ⟨rfl, FS.erase_self _ _, fun q hq => erase_write_other fs _ q _ hq, ?_, ?_⟩
      · intro e' _; exact ⟨rfl, rfl, rfl⟩
      · intro h; exact absurd h (by simp)
    | none =>
      rw [download_sent env fs body hm hi hw hs]
      refine ⟨rfl, FS.erase_self _ _, fun q hq => erase_write_other fs _ q _ hq, ?_, ?_⟩
      · intro e' h; exact absurd h (by simp)
      · intro _; exact ⟨_, rfl⟩
  · intro h
    cases hm : env.mkdirFault with
    | some e =>
      rw [download_mkdir_fault env fs body e hm]
      exact ⟨rfl, by simp⟩
    | none =>
      cases hi : imageError env body.image with
      | some e =>
        rw [download_image_error env fs body e hm hi]
        exact ⟨rfl, by simp⟩
      | none =>
        cases hw : env.writeFault with
        | some e =>
          rw [download_write_fault env fs body e hm hi hw]
          exact ⟨rfl, by simp⟩
        | none =>
          rcases h with h | h | h
          · exact absurd hm h
          · exact absurd hi h
          · exact absurd hw h

/-- Witness of C9: a transfer that fails before the headers go out still
deletes the report, and a failed write stream deletes nothing. -/
theorem download_report_cleanup_witness :
    (download (sampleDownloadEnv none none (some "aborted")) emptyFS
      ⟨"Healthy fern.", none⟩).fs
      (reportPath (sampleDownloadEnv none none (some "aborted")).reportsDir
        (sampleDownloadEnv none none (some "aborted")).now) = none ∧
    ∀ q, Effect.unlink q ∉
      (download (sampleDownloadEnv none (some "ENOSPC") none) emptyFS
        ⟨"Healthy fern.", none⟩).effects :=
  ⟨((download_report_cleanup (sampleDownloadEnv none none (some "aborted")) emptyFS
      ⟨"Healthy fern.", none⟩).1 rfl rfl rfl (Or.inr rfl)).2.1,
   ((download_report_cleanup (sampleDownloadEnv none (some "ENOSPC") none) emptyFS
      ⟨"Healthy fern.", none⟩).2 (Or.inr (Or.inr (by decide)))).2⟩

/-- C9 as stated fails: the handler reaches the send step, the transfer fails
after the response headers have gone out, line 101 throws, and so no deletion
is issued, the report file is still on disk, and the client gets no 500 with
an `error` body. -/
theorem download_aborted_transfer_counterexample :
    sampleAbortedEnv.sendFault = some "aborted" ∧
    (download sampleAbortedEnv emptyFS ⟨"Healthy fern.", none⟩).effects =
      [.mkdir "/srv/app/reports",
        .createWriteStream "/srv/app/reports/plant_analysis_report_1700000000000.pdf",
        .sendFile "/srv/app/reports/plant_analysis_report_1700000000000.pdf"] ∧
    (download sampleAbortedEnv emptyFS ⟨"Healthy fern.", none⟩).fs
      "/srv/app/reports/plant_analysis_report_1700000000000.pdf" = some sampleBytes ∧
    (download sampleAbortedEnv emptyFS ⟨"Healthy fern.", none⟩).response =
      .aborted "/srv/app/reports/plant_analysis_report_1700000000000.pdf" ∧
    (download sampleAbortedEnv emptyFS ⟨"Healthy fern.", none⟩).response.status ≠ 500 ∧
    (download sampleAbortedEnv emptyFS ⟨"Healthy fern.", none⟩).response.field "error" = none ∧
    (download sampleAbortedEnv emptyFS ⟨"Healthy fern.", none⟩).uncaught =
      some headersSentError := by
  decide

/-- C10: for an upload with bytes `b` whose declared MIME type is `image/`
followed by one or more word characters, the `image` string that `/analyze`
returns, fed to `/download`, is cut by the `replace` to exactly base64(b), the
buffer built from it is `b`, and every document `/download` builds from it
draws `b`; the `replace` cuts any string of the shape `data:image/`, word
characters, `;base64,` down to what follows, and returns every other string
unchanged. -/
theorem analyze_image_survives_download (env : AnalyzeEnv) (fs : FS) (f : UploadedFile)
    (b : List Byte) (w : List Char) (img : String)
    (hb : fs f.path = some b) (hne : w ≠ []) (hw : ∀ c ∈ w, isWordChar c = true)
    (hmime : f.mimetype = ⟨"image/".toList ++ w⟩)
    (himg : (analyze env fs (some f)).response.field "image" = some img) :
    replaceAnchored dataUriPattern img = base64 b ∧
    bufferFromBase64 (replaceAnchored dataUriPattern img) = b ∧
    (∀ (denv : DownloadEnv) (dfs : FS) (result : String) (d : List DocOp),
      (download denv dfs ⟨result, some img⟩).document = some d →
      DocOp.image b 500 400 ∈ d) ∧
    (∀ (denv : DownloadEnv) (dfs : FS) (result : String), denv.mkdirFault = none →
      ∃ d, (download denv dfs ⟨result, some img⟩).document = some d) ∧
    (∀ (w' r : List Char), w' ≠ [] → (∀ c ∈ w', isWordChar c = true) →
      replaceAnchored dataUriPattern
        ⟨"data:image/".toList ++ w' ++ ";base64,".toList ++ r⟩ = ⟨r⟩) ∧
    (∀ s : String,
      (¬ ∃ w' r, w' ≠ [] ∧ (∀ c ∈ w', isWordChar c = true) ∧
        s.data = "data:image/".toList ++ w' ++ ";base64,".toList ++ r) →
      replaceAnchored dataUriPattern s = s) := by
  have hshape : img = ⟨"data:image/".toList ++ w ++ ";base64,".toList ++ (base64 b).data⟩ := by
    rcases analyze_some_cases env fs f with ⟨he, _⟩ | ⟨d, t, fs', hr, _, _, ha⟩
    · rw [he] at himg
      simp [analyzeError, Response.field, List.lookup] at himg
    · obtain ⟨_, b', hb', hd⟩ := readStep_ok env fs f.path d hr
      rw [hb] at hb'
      cases hb'
      subst hd
      rw [ha] at himg
      simp only [Response.field, List.lookup] at himg
      have h2 : dataUri f.mimetype (base64 b) = img := by simpa using himg
      rw [← h2, hmime]
      apply String.ext
      simp [dataUri, String.data_append]
  have hstrip : replaceAnchored dataUriPattern img = base64 b := by
    rw [hshape, replaceAnchored_of_shape w _ hne hw]
  have hbuf : imageBuffer img = b := by
    unfold imageBuffer
    rw [hstrip, bufferFromBase64_base64]
  have hnonempty : img ≠ "" := by
    rw [hshape]
    intro h
    have := congrArg String.data h
    simp at this
  refine ⟨hstrip, by rw [hstrip, bufferFromBase64_base64], ?_, ?_,
    fun w' r h1 h2 => replaceAnchored_of_shape w' r h1 h2,
    fun s h => replaceAnchored_of_not_shape s h⟩
  · intro denv dfs result d hd
    cases hm : denv.mkdirFault with
    | some e =>
      rw [download_mkdir_fault denv dfs _ e hm] at hd
      exact absurd hd (by simp)
    | none =>
      have hops : imageOps (some img) = [.addPage, .image b 500 400] := by
        rw [imageOps_of_truthy img hnonempty, hbuf]
      rcases download_document denv dfs ⟨result, some img⟩ hm with h | h
      · rw [h, hops] at hd
        cases hd
        simp
      · rw [h, hops] at hd
        cases hd
        simp
  · intro denv dfs result hm
    rcases download_document denv dfs ⟨result, some img⟩ hm with h | h
    · exact ⟨_, h⟩
    · exact ⟨_, h⟩

/-- Witness of C10: a PNG upload of three bytes. -/
theorem analyze_image_survives_download_witness :
    replaceAnchored dataUriPattern "data:image/png;base64,TWFu" = base64 [77, 97, 110] ∧
    bufferFromBase64 (replaceAnchored dataUriPattern "data:image/png;base64,TWFu") =
      [77, 97, 110] :=
  ⟨(analyze_image_survives_download (sampleEnv (.text "A fern.")) sampleFS
      (sampleFile "image/png") [77, 97, 110] "png".toList "data:image/png;base64,TWFu"
      (by decide) (by decide) (by decide) (by decide) (by decide)).1,
   (analyze_image_survives_download (sampleEnv (.text "A fern.")) sampleFS
      (sampleFile "image/png") [77, 97, 110] "png".toList "data:image/png;base64,TWFu"
      (by decide) (by decide) (by decide) (by decide) (by decide)).2.1⟩

end PlantScan
